import Mathlib

/-!
Shallow embedding of the Flight-Analytics-App ETL pipeline
(src/etl.py, src/main.py, src/new_main.py).

Conventions used throughout:
* JSON payload fields reached by chained `dict.get` calls are flattened into
  `Option String` fields of `FlightPayload`; a missing key is `none`.
* Python's falsiness-aware `a or b` on strings is `pyOr` / `pyOrS`.
* Python f-string interpolation of a possibly-`None` value is `showOpt`
  (`None` renders as the string "None").
* Timestamps handed to `pd.to_datetime(..., errors="coerce")` are modelled by
  an explicit parse function `Option String → Option ℚ` giving the instant in
  seconds; `NaT`/`NaN` is `none`.
* `pandas` Series of delay values (which may contain `NaN`) are
  `List (Option ℚ)`; `mean`/`median` skip `none` exactly as pandas skips `NaN`.
-/

/-- Python `a or b` where both sides are optional strings: a `None` or empty
left operand falls through to the right operand. -/
def pyOr (a b : Option String) : Option String :=
  match a with
  | some s => if s = "" then b else some s
  | none => b

/-- Python `a or b` where the right operand is a (non-`None`) string, as in
`dep.get("airport", {}).get("iata") or iata`. -/
def pyOrS (a : Option String) (b : String) : String :=
  match a with
  | some s => if s = "" then b else s
  | none => b

/-- Python f-string rendering of a possibly-`None` string value. -/
def showOpt (a : Option String) : String :=
  match a with
  | some s => s
  | none => "None"

/-- ASCII lower-casing of one character, modelling Python `str.lower()`. -/
def asciiLower (c : Char) : Char :=
  if 'A' ≤ c ∧ c ≤ 'Z' then Char.ofNat (c.toNat + 32) else c

/-- Python `str.lower()` (ASCII fragment, enough for the status strings). -/
def pyLower (s : String) : String :=
  String.mk (s.toList.map asciiLower)

/-- Whitespace test for `str.strip()`. -/
def isSpaceChar (c : Char) : Bool :=
  c = ' ' || c = '\t' || c = '\n' || c = '\r'

/-- Python `str.strip()`: drop leading and trailing whitespace. -/
def pyStrip (s : String) : String :=
  String.mk (((s.toList.dropWhile isSpaceChar).reverse.dropWhile isSpaceChar).reverse)

/-- One raw flight JSON object as returned by the upstream flights endpoint,
with the nested `dict.get` chains of the source flattened:
`number` = `f.get("number")`,
`airlineIata` = `f.get("airline", {}).get("iata")`,
`aircraftReg` = `f.get("aircraft", {}).get("reg")`,
`depAirportIata` = `f.get("departure", {}).get("airport", {}).get("iata")`,
`depScheduledUtc` = `f.get("departure", {}).get("scheduledTime", {}).get("utc")`,
`depRevisedUtc` = `f.get("departure", {}).get("revisedTime", {}).get("utc")`,
`depActualTimeLocal` = `f.get("departure", {}).get("actualTimeLocal")`,
and symmetrically for the `arrival` side. -/
structure FlightPayload where
  number : Option String
  airlineIata : Option String
  aircraftReg : Option String
  status : Option String
  depAirportIata : Option String
  arrAirportIata : Option String
  depScheduledUtc : Option String
  depRevisedUtc : Option String
  depActualTimeLocal : Option String
  arrScheduledUtc : Option String
  arrRevisedUtc : Option String
  arrActualTimeLocal : Option String
  deriving DecidableEq, Repr

/-- A flight payload with every field absent, for building concrete tests. -/
def emptyFlight : FlightPayload :=
  { number := none, airlineIata := none, aircraftReg := none, status := none
    depAirportIata := none, arrAirportIata := none
    depScheduledUtc := none, depRevisedUtc := none, depActualTimeLocal := none
    arrScheduledUtc := none, arrRevisedUtc := none, arrActualTimeLocal := none }

/-- The `{"departures": [...], "arrivals": [...]}` structure fed to
`flights_to_dataframe`. -/
structure FlightsBundle where
  departures : List FlightPayload
  arrivals : List FlightPayload
  deriving DecidableEq, Repr

/-- One row of the normalized flights DataFrame (the dict literals built in
`flights_to_dataframe` in src/etl.py and src/new_main.py). -/
structure FlightRow where
  flight_id : String
  flight_number : Option String
  aircraft_registration : Option String
  origin_iata : Option String
  destination_iata : Option String
  scheduled_departure : Option String
  actual_departure : Option String
  scheduled_arrival : Option String
  actual_arrival : Option String
  status : Option String
  airline_code : Option String
  deriving DecidableEq, Repr

/-- A flight row with every nullable field absent, for `List.getD` defaults. -/
def emptyRow : FlightRow :=
  { flight_id := "", flight_number := none, aircraft_registration := none
    origin_iata := none, destination_iata := none
    scheduled_departure := none, actual_departure := none
    scheduled_arrival := none, actual_arrival := none
    status := none, airline_code := none }

/-- Keep the first row for each `flight_id`, accumulating keys already seen;
models `pandas.DataFrame.drop_duplicates(subset=["flight_id"])`. -/
def dropDupsAux (seen : List String) : List FlightRow → List FlightRow
  | [] => []
  | r :: rs =>
    if r.flight_id ∈ seen then dropDupsAux seen rs
    else r :: dropDupsAux (r.flight_id :: seen) rs

/-- Deduplication by `flight_id`, keeping the first occurrence. -/
def dropDupsByFlightId (rs : List FlightRow) : List FlightRow :=
  dropDupsAux [] rs

/-! ### Normalizer, src/new_main.py `flights_to_dataframe` (lines 239-307) -/

/-- Row built for one element of `flights["departures"]` in
src/new_main.py lines 243-270: the identity key is
`f"{airline_code}_{flight_number}_{scheduled_dep}"`, actual times prefer the
revised time and fall back to the scheduled one. -/
def depRowNew (iata : String) (f : FlightPayload) : FlightRow :=
  let airline_code := f.airlineIata
  let flight_number := f.number
  let scheduled_dep := f.depScheduledUtc
  let actual_dep := pyOr f.depRevisedUtc scheduled_dep
  let scheduled_arr := f.arrScheduledUtc
  let actual_arr := pyOr f.arrRevisedUtc scheduled_arr
  let origin := pyOrS f.depAirportIata iata
  let destination := f.arrAirportIata
  { flight_id := showOpt airline_code ++ "_" ++ showOpt flight_number ++ "_"
      ++ showOpt scheduled_dep
    flight_number := flight_number
    aircraft_registration := f.aircraftReg
    origin_iata := some origin
    destination_iata := destination
    scheduled_departure := scheduled_dep
    actual_departure := actual_dep
    scheduled_arrival := scheduled_arr
    actual_arrival := actual_arr
    status := f.status
    airline_code := airline_code }

/-- Row built for one element of `flights["arrivals"]` in
src/new_main.py lines 273-300: the identity key is
`f"{airline_code}_{flight_number}_{scheduled_arr}"`. -/
def arrRowNew (iata : String) (f : FlightPayload) : FlightRow :=
  let airline_code := f.airlineIata
  let flight_number := f.number
  let scheduled_arr := f.arrScheduledUtc
  let actual_arr := pyOr f.arrRevisedUtc scheduled_arr
  let scheduled_dep := f.depScheduledUtc
  let actual_dep := pyOr f.depRevisedUtc scheduled_dep
  let origin := f.depAirportIata
  let destination := pyOrS f.arrAirportIata iata
  { flight_id := showOpt airline_code ++ "_" ++ showOpt flight_number ++ "_"
      ++ showOpt scheduled_arr
    flight_number := flight_number
    aircraft_registration := f.aircraftReg
    origin_iata := origin
    destination_iata := some destination
    scheduled_departure := scheduled_dep
    actual_departure := actual_dep
    scheduled_arrival := scheduled_arr
    actual_arrival := actual_arr
    status := f.status
    airline_code := airline_code }

/-- src/new_main.py `flights_to_dataframe`: departures rows, then arrivals
rows, then `drop_duplicates(subset=["flight_id"])`. -/
def flightsToDataframeNew (flights : FlightsBundle) (iata : String) : List FlightRow :=
  dropDupsByFlightId
    (flights.departures.map (depRowNew iata) ++ flights.arrivals.map (arrRowNew iata))

/-! ### Normalizer, src/etl.py `flights_to_dataframe` (lines 165-201) -/

/-- Row built for one element of `flights["departures"]` in
src/etl.py lines 169-183: the identity key is
`f"{flight.get('number')}_{departure scheduledTime utc}"`; the actual
timestamps are the revised times only, with no fallback to the scheduled
times; the queried airport is substituted as the origin. -/
def depRowEtl (airport_iata : String) (f : FlightPayload) : FlightRow :=
  { flight_id := showOpt f.number ++ "_" ++ showOpt f.depScheduledUtc
    flight_number := f.number
    aircraft_registration := f.aircraftReg
    origin_iata := some airport_iata
    destination_iata := f.arrAirportIata
    scheduled_departure := f.depScheduledUtc
    actual_departure := f.depRevisedUtc
    scheduled_arrival := f.arrScheduledUtc
    actual_arrival := f.arrRevisedUtc
    status := f.status
    airline_code := f.airlineIata }

/-- Row built for one element of `flights["arrivals"]` in
src/etl.py lines 185-199: the identity key is
`f"{flight.get('number')}_{arrival scheduledTime utc}"`; the queried airport
is substituted as the destination. -/
def arrRowEtl (airport_iata : String) (f : FlightPayload) : FlightRow :=
  { flight_id := showOpt f.number ++ "_" ++ showOpt f.arrScheduledUtc
    flight_number := f.number
    aircraft_registration := f.aircraftReg
    origin_iata := f.depAirportIata
    destination_iata := some airport_iata
    scheduled_departure := f.depScheduledUtc
    actual_departure := f.depRevisedUtc
    scheduled_arrival := f.arrScheduledUtc
    actual_arrival := f.arrRevisedUtc
    status := f.status
    airline_code := f.airlineIata }

/-- src/etl.py `flights_to_dataframe`: departures rows, then arrivals rows,
then `drop_duplicates(subset=["flight_id"])`. -/
def flightsToDataframeEtl (flights : FlightsBundle) (airport_iata : String) : List FlightRow :=
  dropDupsByFlightId
    (flights.departures.map (depRowEtl airport_iata)
      ++ flights.arrivals.map (arrRowEtl airport_iata))

/-- One physical leg DEL → BOM, as the upstream would report it both in the
departures view of DEL and in the arrivals view of BOM (and of DEL's own
arrivals list when the route loops through tracked airports). -/
def legC1 : FlightPayload :=
  { emptyFlight with
    number := some "101"
    airlineIata := some "AI"
    status := some "Departed"
    depAirportIata := some "DEL"
    arrAirportIata := some "BOM"
    depScheduledUtc := some "2024-12-14T04:30Z"
    arrScheduledUtc := some "2024-12-14T06:30Z" }

/-! ### Delay metrics, src/etl.py `compute_airport_delay_metrics` (lines 208-263)

The four timestamp columns are run through
`pd.to_datetime(df[col], errors="coerce", utc=True)`; that conversion is
modelled by an explicit `parse : Option String → Option ℚ` giving the instant
in seconds (`none` = `NaT`). Delay series entries are `Option ℚ` in minutes
(`none` = `NaN`). -/

/-- `pandas.Series.clip(lower=0)` on one value: negatives become zero. The
negativity test is on the numerator so that the kernel can evaluate it. -/
def clipLow0 (q : ℚ) : ℚ :=
  if q.num < 0 then 0 else q

/-- Python `int(...)` on a float: truncation toward zero. -/
def pyInt (q : ℚ) : ℤ :=
  if 0 ≤ q then ((q.num.toNat / q.den : ℕ) : ℤ)
  else -(((-q.num).toNat / q.den : ℕ) : ℤ)

/-- Insert into a sorted list of rationals. -/
def insertSortedQ (x : ℚ) : List ℚ → List ℚ
  | [] => [x]
  | y :: ys => if x ≤ y then x :: y :: ys else y :: insertSortedQ x ys

/-- Sort a list of rationals ascending (insertion sort). -/
def sortQ (xs : List ℚ) : List ℚ :=
  xs.foldr insertSortedQ []

/-- Median as `pandas.Series.median` computes it on the non-`NaN` values:
middle element for odd length, mean of the two middle elements for even
length. The value for an empty list is irrelevant (that case raises earlier
in the source, see `computeAirportDelayMetrics`). -/
def medianQ (xs : List ℚ) : ℚ :=
  let s := sortQ xs
  let n := s.length
  if n = 0 then 0
  else if n % 2 = 1 then s.getD (n / 2) 0
  else ((s.getD (n / 2 - 1) 0) + (s.getD (n / 2) 0)) / 2

/-- Filter for the `dep` frame (src/etl.py lines 224-228): rows whose
`origin_iata` equals the queried airport and whose parsed
`scheduled_departure` and `actual_departure` are both present. -/
def depRowsEtl (parse : Option String → Option ℚ) (df : List FlightRow)
    (iata : String) : List FlightRow :=
  df.filter fun r =>
    decide (r.origin_iata = some iata)
      && (parse r.scheduled_departure).isSome
      && (parse r.actual_departure).isSome

/-- Filter for the `arr` frame (src/etl.py lines 234-238): rows whose
`destination_iata` equals the queried airport and whose parsed
`scheduled_arrival` and `actual_arrival` are both present. -/
def arrRowsEtl (parse : Option String → Option ℚ) (df : List FlightRow)
    (iata : String) : List FlightRow :=
  df.filter fun r =>
    decide (r.destination_iata = some iata)
      && (parse r.scheduled_arrival).isSome
      && (parse r.actual_arrival).isSome

/-- Delay in minutes computed from the ARRIVAL timestamps,
`clip(lower=0)` applied: `clipLow0 ((actual_arrival - scheduled_arrival)/60)`.
`none` when either arrival timestamp is `NaT` (then the subtraction is `NaT`
and the minutes value is `NaN`).

This is the delay attached to the `arr` rows (src/etl.py lines 240-241), and
ALSO the final delay attached to the `dep` rows: lines 243-245 re-assign
`dep["delay"]` from `actual_arrival - scheduled_arrival`, overwriting the
departure-based delay that lines 230-232 had computed. -/
def delayFromArrivalFieldsMin (parse : Option String → Option ℚ)
    (r : FlightRow) : Option ℚ :=
  match parse r.actual_arrival, parse r.scheduled_arrival with
  | some a, some s => some (clipLow0 ((a - s) / 60))
  | _, _ => none

/-- The pooled delay series `delays = pd.concat([dep["delay"], arr["delay"]])`
(src/etl.py line 248), after the line 243-245 overwrite: both halves carry the
arrival-based delay. -/
def pooledDelaysEtl (parse : Option String → Option ℚ) (df : List FlightRow)
    (iata : String) : List (Option ℚ) :=
  (depRowsEtl parse df iata).map (delayFromArrivalFieldsMin parse)
    ++ (arrRowsEtl parse df iata).map (delayFromArrivalFieldsMin parse)

/-- Cancellation test `df["status"].str.lower().isin(["cancelled", "canceled"])`;
a missing status is `NaN` and never matches. -/
def statusIsCancelled (status : Option String) : Bool :=
  match status with
  | some s => pyLower s = "cancelled" || pyLower s = "canceled"
  | none => false

/-- The record persisted into `airport_delays` (the dict literal of
src/etl.py lines 255-263). -/
structure DelayMetrics where
  airport_iata : String
  delay_date : String
  total_flights : ℕ
  delayed_flights : ℕ
  avg_delay_min : ℤ
  median_delay_min : ℤ
  canceled_flights : ℕ
  deriving DecidableEq, Repr

/-- src/etl.py `compute_airport_delay_metrics`. Returns
`Except.error` for the `ValueError` Python raises in `int(delays.mean())`
when the pooled series is non-empty but every entry is `NaN` (the guard at
line 260 only checks `delays.empty`, and `mean`/`median` skip `NaN`). -/
def computeAirportDelayMetrics (parse : Option String → Option ℚ)
    (df : List FlightRow) (iata : String) (date_str : String) :
    Except String DelayMetrics :=
  let dep := depRowsEtl parse df iata
  let arr := arrRowsEtl parse df iata
  let delays := pooledDelaysEtl parse df iata
  let numeric := delays.filterMap id
  let delayed := (delays.filter fun d =>
    match d with
    | some q => decide (0 < q)
    | none => false).length
  let cancelled := (df.filter fun r =>
    statusIsCancelled r.status
      && (decide (r.origin_iata = some iata)
          || decide (r.destination_iata = some iata))).length
  if delays.isEmpty then
    Except.ok
      { airport_iata := iata
        delay_date := date_str
        total_flights := dep.length + arr.length
        delayed_flights := delayed
        avg_delay_min := 0
        median_delay_min := 0
        canceled_flights := cancelled }
  else if numeric.isEmpty then
    Except.error "cannot convert float NaN to integer"
  else
    Except.ok
      { airport_iata := iata
        delay_date := date_str
        total_flights := dep.length + arr.length
        delayed_flights := delayed
        avg_delay_min := pyInt (numeric.sum / (numeric.length : ℚ))
        median_delay_min := pyInt (medianQ numeric)
        canceled_flights := cancelled }

/-- Concrete stand-in for `pd.to_datetime` on the timestamp strings used in
the C2/C3 scenarios, mapped to seconds within 2024-12-14 UTC. -/
def parseScenario : Option String → Option ℚ
  | some s =>
    if s = "2024-12-14T10:00Z" then some 36000
    else if s = "2024-12-14T10:25Z" then some 37500
    else if s = "2024-12-14T12:00Z" then some 43200
    else if s = "2024-12-14T12:10Z" then some 43800
    else none
  | none => none

/-- Row for the C2 counterexample: departs DEL 25 minutes late
(10:00 scheduled, 10:25 actual) and arrives 10 minutes late
(12:00 scheduled, 12:10 actual). -/
def rowC2 : FlightRow :=
  { emptyRow with
    flight_id := "AI_101_2024-12-14T10:00Z"
    origin_iata := some "DEL"
    destination_iata := some "BOM"
    scheduled_departure := some "2024-12-14T10:00Z"
    actual_departure := some "2024-12-14T10:25Z"
    scheduled_arrival := some "2024-12-14T12:00Z"
    actual_arrival := some "2024-12-14T12:10Z" }

/-- Row for the C3 scenario of the spec: scheduled departure
2024-12-14T10:00Z, actual departure 2024-12-14T10:25Z, origin DEL, nothing
else known. -/
def rowC3 : FlightRow :=
  { emptyRow with
    origin_iata := some "DEL"
    scheduled_departure := some "2024-12-14T10:00Z"
    actual_departure := some "2024-12-14T10:25Z" }

/-! ### Persistence layer

`INSERT OR IGNORE` writes against the SQLite store. Modelled from the spec:
schema.sql is not under src/, so the uniqueness constraints come from the
spec's schema contract (section 6): `airport` unique on `iata_code`,
`aircraft` unique on `registration`, `flights` unique on `flight_id`,
`airport_delays` append-only with no uniqueness constraint. SQLite `UNIQUE`
semantics: a NULL key never conflicts with anything. -/

/-- SQLite `UNIQUE`-constraint conflict between two optional key values:
equal non-NULL values conflict, NULL conflicts with nothing. -/
def keyConflict (a b : Option String) : Bool :=
  match a, b with
  | some x, some y => x = y
  | _, _ => false

/-- Whether some row of the table conflicts with key value `k` under the
table's unique key. -/
def hasKeyBy {α : Type} (key : α → Option String) (tbl : List α)
    (k : Option String) : Bool :=
  tbl.any fun y => keyConflict (key y) k

/-- `INSERT OR IGNORE`: append the new row unless an existing row conflicts
with it on the table's unique key. -/
def insertOrIgnoreBy {α : Type} (key : α → Option String) (tbl : List α)
    (x : α) : List α :=
  if hasKeyBy key tbl (key x) then tbl else tbl ++ [x]

/-- One row of the `airport` table (columns of the INSERT in
src/etl.py `insert_airport` and src/new_main.py `insert_airport`). -/
structure AirportRow where
  icao_code : Option String
  iata_code : Option String
  name : Option String
  city : Option String
  country : Option String
  continent : Option String
  latitude : Option ℚ
  longitude : Option ℚ
  timezone : Option String
  deriving DecidableEq, Repr

/-- One row of the `aircraft` table (columns of the INSERT in
src/etl.py `insert_aircraft`; the non-key columns use `dict.get` defaults of
`""`). -/
structure AircraftRow where
  registration : Option String
  model : String
  manufacturer : String
  icao_type_code : String
  owner : String
  deriving DecidableEq, Repr

/-- `insert_airport`: `INSERT OR IGNORE INTO airport`, unique on `iata_code`
(modelled from the spec's schema contract). -/
def insertAirport (tbl : List AirportRow) (a : AirportRow) : List AirportRow :=
  insertOrIgnoreBy AirportRow.iata_code tbl a

/-- `insert_aircraft`: `INSERT OR IGNORE INTO aircraft`, unique on
`registration` (modelled from the spec's schema contract). -/
def insertAircraft (tbl : List AircraftRow) (c : AircraftRow) : List AircraftRow :=
  insertOrIgnoreBy AircraftRow.registration tbl c

/-- src/new_main.py `batch_insert_flights`: `executemany` of
`INSERT OR IGNORE INTO flights`, unique on `flight_id` (modelled from the
spec's schema contract); the normalized rows carry a non-NULL string
`flight_id` built by f-string interpolation. -/
def batchInsertFlights (tbl : List FlightRow) (df : List FlightRow) : List FlightRow :=
  df.foldl (insertOrIgnoreBy fun r => some r.flight_id) tbl

/-- src/etl.py `insert_airport_delay`: a plain `INSERT INTO airport_delays`
(no OR IGNORE, no uniqueness constraint) — always appends. -/
def insertAirportDelay (tbl : List DelayMetrics) (m : DelayMetrics) : List DelayMetrics :=
  tbl ++ [m]

/-- The four tables of the relational store. -/
structure DBState where
  airport : List AirportRow
  aircraft : List AircraftRow
  flights : List FlightRow
  airport_delays : List DelayMetrics
  deriving DecidableEq, Repr

/-- One run of the per-airport persistence sequence with fixed inputs:
`insert_airport`, the aircraft-enrichment inserts, `batch_insert_flights` on
the normalized deduplicated rows, then `insert_airport_delay` on the computed
summary (src/new_main.py `run_etl` body plus src/etl.py aircraft loop and
`insert_airport_delay`). -/
def runPipelineOnce (s : DBState) (a : AirportRow) (crows : List AircraftRow)
    (frows : List FlightRow) (m : DelayMetrics) : DBState :=
  { airport := insertAirport s.airport a
    aircraft := crows.foldl insertAircraft s.aircraft
    flights := batchInsertFlights s.flights frows
    airport_delays := insertAirportDelay s.airport_delays m }

/-! ### Per-record flight persistence, `insert_flight`
(src/main.py lines 183-212, src/new_main.py lines 167-196) -/

/-- One row of the `flights` table as `insert_flight` builds it; all columns
pass through `safe_str`, which keeps `None` and plain strings unchanged. -/
structure StoredFlightRow where
  flight_id : Option String
  flight_number : Option String
  aircraft_registration : Option String
  origin_iata : Option String
  destination_iata : Option String
  scheduled_departure : Option String
  actual_departure : Option String
  scheduled_arrival : Option String
  actual_arrival : Option String
  status : Option String
  airline_code : Option String
  deriving DecidableEq, Repr

/-- The VALUES tuple of `insert_flight`: both `flight_id` and `flight_number`
are `f.get("number")`; origin/destination fall back to the queried airport;
the actual timestamps are the `actualTimeLocal` fields. -/
def insertFlightRow (f : FlightPayload) (iata : String) : StoredFlightRow :=
  { flight_id := f.number
    flight_number := f.number
    aircraft_registration := f.aircraftReg
    origin_iata := some (pyOrS f.depAirportIata iata)
    destination_iata := some (pyOrS f.arrAirportIata iata)
    scheduled_departure := f.depScheduledUtc
    actual_departure := f.depActualTimeLocal
    scheduled_arrival := f.arrScheduledUtc
    actual_arrival := f.arrActualTimeLocal
    status := f.status
    airline_code := f.airlineIata }

/-- `insert_flight`: `INSERT OR IGNORE INTO flights` of the row above,
unique on `flight_id` (modelled from the spec's schema contract). -/
def insertFlight (tbl : List StoredFlightRow) (f : FlightPayload)
    (iata : String) : List StoredFlightRow :=
  insertOrIgnoreBy StoredFlightRow.flight_id tbl (insertFlightRow f iata)

/-! ### Orchestrator (src/main.py `run_etl` lines 262-300,
src/new_main.py `run_etl` lines 309-385)

Both variants loop `for iata in AIRPORTS`, wrap the airport's
fetch/normalize/persist sequence in `try/except Exception` that prints the
error, and end the loop body with an unconditional `break` (src/main.py line
300; src/new_main.py line 385, commented "remove this break when ready for
all airports"). The per-airport sequence is abstracted as
`process : String → Except String Unit`; the run's trace records each airport
attempted together with the error logged for it, if any. -/

def runEtlLoop (airports : List String)
    (process : String → Except String Unit) : List (String × Option String) :=
  match airports with
  | [] => []
  | a :: _ =>
    match process a with
    | Except.ok _ => [(a, none)]
    | Except.error e => [(a, some e)]

/-- The configured airport list (identical in src/etl.py, src/main.py and
src/new_main.py). -/
def AIRPORTS : List String :=
  ["DEL", "BOM", "BLR", "HYD", "JFK", "LAX", "DXB",
   "SIN", "LHR", "CDG", "CCU", "PNQ", "GOI", "MAA", "MYQ"]

/-! ### Time window splitter -/

/-- One request window, as a pair of UTC instants in minutes relative to
local (Asia/Kolkata) midnight of the target date. -/
structure TimeWindow where
  startMin : ℤ
  endMin : ℤ
  deriving DecidableEq, Repr

/-- Asia/Kolkata offset from UTC, in minutes (+05:30, no DST). -/
def istOffsetMin : ℤ := 330

/-- src/etl.py `fetch_flights` lines 104-115 (the identical construction
appears in src/new_main.py `fetch_flights` lines 99-108): local day start,
`local_mid = start + 12h`, `local_end = start + 23h59m`, windows
`[(start, mid), (mid + 1min, end)]`, each converted to UTC. -/
def etlFetchFlightsWindows : List TimeWindow :=
  let local_start : ℤ := 0
  let local_mid : ℤ := local_start + 12 * 60
  let local_end : ℤ := local_start + 23 * 60 + 59
  [⟨local_start - istOffsetMin, local_mid - istOffsetMin⟩,
   ⟨local_mid + 1 - istOffsetMin, local_end - istOffsetMin⟩]

/-- src/main.py `fetch_flights_for_date` lines 90-99: windows
`[(start, start + 12h), (start + 12h, start + 1day)]` over the same local
day. -/
def fetchFlightsForDateWindows : List TimeWindow :=
  let start_day : ℤ := 0
  [⟨start_day - istOffsetMin, start_day + 12 * 60 - istOffsetMin⟩,
   ⟨start_day + 12 * 60 - istOffsetMin, start_day + 24 * 60 - istOffsetMin⟩]

/-- Membership of a local-time minute in a window after converting the
window's UTC bounds back to local time. -/
def localMinuteIn (w : TimeWindow) (m : ℤ) : Prop :=
  w.startMin + istOffsetMin ≤ m ∧ m ≤ w.endMin + istOffsetMin

/-- A local-time minute is covered by the union of the windows. -/
def coveredLocal (ws : List TimeWindow) (m : ℤ) : Prop :=
  ∃ w ∈ ws, localMinuteIn w m

/-! ### Aircraft lookup (src/etl.py `fetch_aircraft_data` lines 291-299) -/

/-- An HTTP response: status code, raw body text, and the value
`response.json()` would produce, abstract in `α`. -/
structure HttpResponse (α : Type) where
  status : ℕ
  text : String
  json : α

/-- src/etl.py `fetch_aircraft_data`, given the upstream response: `None`
when the status is not 200 or the stripped body is empty, otherwise the
parsed JSON. There is no `raise_for_status` call in this function — no status
code makes it raise. -/
def fetchAircraftData {α : Type} (r : HttpResponse α) : Option α :=
  if r.status ≠ 200 ∨ pyStrip r.text = "" then none else some r.json

/-- Modelled from the spec: the behavior the spec's section 4.2 words ascribe
to `fetchAircraft(registration)` — metadata on a successful (2xx) response,
absent-result on "not found" (404), fatal error on any other non-2xx. Named
`claimed...` because it follows the spec's words, to be compared with
`fetchAircraftData`, which is translated from the source. -/
def claimedFetchAircraftData {α : Type} (r : HttpResponse α) :
    Except String (Option α) :=
  if 200 ≤ r.status ∧ r.status < 300 then Except.ok (some r.json)
  else if r.status = 404 then Except.ok none
  else Except.error "UpstreamHttpError"

/-! ### Concrete fixtures used by the claim theorems and witnesses -/

/-- A server-error response to the aircraft lookup. -/
def resp500 : HttpResponse String :=
  { status := 500, text := "Internal Server Error", json := "payload" }

/-- A departures-side payload whose `revisedTime` is absent while its
`scheduledTime` is present. -/
def legC8 : FlightPayload :=
  { emptyFlight with
    number := some "101"
    airlineIata := some "AI"
    depScheduledUtc := some "2024-12-14T04:30Z" }

/-- Payload: IndiGo flight 202, DEL → BOM. -/
def pf1 : FlightPayload :=
  { emptyFlight with
    number := some "6E 202"
    airlineIata := some "6E"
    depAirportIata := some "DEL"
    arrAirportIata := some "BOM"
    depScheduledUtc := some "2024-12-14T05:00Z" }

/-- Payload: a DIFFERENT airline and route that happens to share the raw
flight number string with `pf1`. -/
def pf2 : FlightPayload :=
  { emptyFlight with
    number := some "6E 202"
    airlineIata := some "AI"
    depAirportIata := some "BLR"
    arrAirportIata := some "CCU"
    depScheduledUtc := some "2024-12-14T09:00Z" }

/-- Airport row for DEL (witness input). -/
def aDel : AirportRow :=
  { icao_code := some "VIDP", iata_code := some "DEL"
    name := some "Indira Gandhi International", city := some "Delhi"
    country := some "India", continent := some "Asia"
    latitude := some (28477 / 1000), longitude := some (77103 / 1000)
    timezone := some "Asia/Kolkata" }

/-- Aircraft row (witness input). -/
def acVtana : AircraftRow :=
  { registration := some "VT-ANA", model := "B788"
    manufacturer := "Boeing", icao_type_code := "B788", owner := "Air India" }

/-- Delay summary row (witness input). -/
def mDel : DelayMetrics :=
  { airport_iata := "DEL", delay_date := "2024-12-14", total_flights := 1
    delayed_flights := 1, avg_delay_min := 25, median_delay_min := 25
    canceled_flights := 0 }

/-- Empty database (witness input). -/
def dbEmpty : DBState :=
  { airport := [], aircraft := [], flights := [], airport_delays := [] }

/-! ## Helper lemmas -/

/-- Clipping at zero yields a non-negative value. -/
theorem clipLow0_nonneg (q : ℚ) : 0 ≤ clipLow0 q := by
  unfold clipLow0
  split
  · exact le_refl 0
  · next h =>
    have hn : 0 ≤ q.num := le_of_not_lt h
    exact Rat.num_nonneg.mp hn

/-- `pyOr` yields a present value whenever its right operand is present. -/
theorem pyOr_isSome_right (a b : Option String) (h : b.isSome = true) :
    (pyOr a b).isSome = true := by
  unfold pyOr
  cases a with
  | none => exact h
  | some s =>
    by_cases hs : s = ""
    · simp [hs, h]
    · simp [hs]

/-- Rows surviving deduplication come from the input list. -/
theorem dropDupsAux_subset (rs : List FlightRow) (seen : List String)
    (r : FlightRow) (h : r ∈ dropDupsAux seen rs) : r ∈ rs := by
  induction rs generalizing seen with
  | nil => cases h
  | cons a as ih =>
    unfold dropDupsAux at h
    split at h
    · exact List.mem_cons_of_mem a (ih _ h)
    · rcases List.mem_cons.mp h with h1 | h1
      · exact h1 ▸ List.mem_cons_self a as
      · exact List.mem_cons_of_mem a (ih _ h1)

/-- A present key conflicts with itself. -/
theorem keyConflict_self (k : Option String) (h : k.isSome = true) :
    keyConflict k k = true := by
  cases k with
  | none => cases h
  | some s => simp [keyConflict]

/-- A non-conflict with a present key means the key values differ. -/
theorem ne_of_keyConflict_false {a : Option String} {s : String}
    (h : keyConflict a (some s) = false) : a ≠ some s := by
  cases a with
  | none => exact fun hc => Option.noConfusion hc
  | some x =>
    simp [keyConflict] at h
    exact fun hc => h (Option.some.injEq x s ▸ congrArg (Option.getD · "") hc)

/-- `INSERT OR IGNORE` is the identity when the key is already present. -/
theorem insertOrIgnoreBy_of_hasKey {α : Type} (key : α → Option String)
    {t : List α} {x : α} (h : hasKeyBy key t (key x) = true) :
    insertOrIgnoreBy key t x = t := by
  simp [insertOrIgnoreBy, h]

/-- Keys present before an `INSERT OR IGNORE` stay present after it. -/
theorem hasKeyBy_insert_mono {α : Type} (key : α → Option String)
    {t : List α} {k : Option String} (x : α) (h : hasKeyBy key t k = true) :
    hasKeyBy key (insertOrIgnoreBy key t x) k = true := by
  unfold insertOrIgnoreBy
  split
  · exact h
  · simp only [hasKeyBy, List.any_append] at h ⊢
    simp [h]

/-- After inserting a row with a present key, that key is present. -/
theorem hasKeyBy_insert_self {α : Type} (key : α → Option String)
    (t : List α) {x : α} (h : (key x).isSome = true) :
    hasKeyBy key (insertOrIgnoreBy key t x) (key x) = true := by
  unfold insertOrIgnoreBy
  split
  · next hc => exact hc
  · simp only [hasKeyBy, List.any_append, List.any_cons, List.any_nil]
    simp [keyConflict_self (key x) h]

/-- Keys present before a batch of `INSERT OR IGNORE`s stay present. -/
theorem hasKeyBy_foldl_mono {α : Type} (key : α → Option String)
    (xs : List α) {t : List α} {k : Option String}
    (h : hasKeyBy key t k = true) :
    hasKeyBy key (xs.foldl (insertOrIgnoreBy key) t) k = true := by
  induction xs generalizing t with
  | nil => exact h
  | cons a as ih => exact ih (hasKeyBy_insert_mono key a h)

/-- After a batch insert, the key of every batched row with a present key is
present in the table. -/
theorem hasKeyBy_foldl_mem {α : Type} (key : α → Option String)
    {xs : List α} {x : α} (t : List α) (hx : x ∈ xs)
    (hs : (key x).isSome = true) :
    hasKeyBy key (xs.foldl (insertOrIgnoreBy key) t) (key x) = true := by
  induction xs generalizing t with
  | nil => cases hx
  | cons a as ih =>
    rcases List.mem_cons.mp hx with h1 | h1
    · subst h1
      exact hasKeyBy_foldl_mono key as (hasKeyBy_insert_self key t hs)
    · exact ih _ h1

/-- A batch whose keys are all already present inserts nothing. -/
theorem foldl_insertOrIgnoreBy_noop {α : Type} (key : α → Option String)
    {xs : List α} {t : List α}
    (h : ∀ x ∈ xs, hasKeyBy key t (key x) = true) :
    xs.foldl (insertOrIgnoreBy key) t = t := by
  induction xs with
  | nil => rfl
  | cons a as ih =>
    rw [List.foldl_cons, insertOrIgnoreBy_of_hasKey key (h a (List.mem_cons_self a as))]
    exact ih fun x hx => h x (List.mem_cons_of_mem a hx)

/-- Replaying a batch of `INSERT OR IGNORE`s whose keys are all present
(non-NULL) is a no-op. -/
theorem batch_insertOrIgnoreBy_idem {α : Type} (key : α → Option String)
    (xs : List α) (t : List α) (h : ∀ x ∈ xs, (key x).isSome = true) :
    xs.foldl (insertOrIgnoreBy key) (xs.foldl (insertOrIgnoreBy key) t)
      = xs.foldl (insertOrIgnoreBy key) t :=
  foldl_insertOrIgnoreBy_noop key fun x hx => hasKeyBy_foldl_mem key t hx (h x hx)

/-- Replaying one `INSERT OR IGNORE` with a present (non-NULL) key is a
no-op. -/
theorem insertOrIgnoreBy_idem {α : Type} (key : α → Option String)
    (t : List α) (a : α) (h : (key a).isSome = true) :
    insertOrIgnoreBy key (insertOrIgnoreBy key t a) a
      = insertOrIgnoreBy key t a :=
  insertOrIgnoreBy_of_hasKey key (hasKeyBy_insert_self key t h)

/-- Invariant of the `insert_flight` path: starting from a table whose rows
all store their flight number as their `flight_id` and whose `flight_id`s are
pairwise distinct, folding `insert_flight` over payloads with string flight
numbers preserves both facts. -/
theorem insertFlight_fold_inv (fs : List (FlightPayload × String))
    (t : List StoredFlightRow)
    (hnum : ∀ p ∈ fs, p.1.number.isSome = true)
    (h1 : ∀ r ∈ t, r.flight_number = r.flight_id)
    (h2 : t.Pairwise fun r r' => r.flight_id ≠ r'.flight_id) :
    (∀ r ∈ fs.foldl (fun tb p => insertFlight tb p.1 p.2) t,
      r.flight_number = r.flight_id) ∧
    (fs.foldl (fun tb p => insertFlight tb p.1 p.2) t).Pairwise
      (fun r r' => r.flight_id ≠ r'.flight_id) := by
  induction fs generalizing t with
  | nil => exact ⟨h1, h2⟩
  | cons p ps ih =>
    simp only [List.foldl_cons]
    apply ih
    · exact fun q hq => hnum q (List.mem_cons_of_mem p hq)
    · intro r hr
      unfold insertFlight insertOrIgnoreBy at hr
      split at hr
      · exact h1 r hr
      · rcases List.mem_append.mp hr with h | h
        · exact h1 r h
        · have he : r = insertFlightRow p.1 p.2 := by simpa using h
          subst he; rfl
    · unfold insertFlight insertOrIgnoreBy
      split
      · exact h2
      · next hkey =>
        have hkey' : hasKeyBy StoredFlightRow.flight_id t
            ((insertFlightRow p.1 p.2).flight_id) = false :=
          Bool.not_eq_true _ ▸ eq_false_of_ne_true hkey
        rw [List.pairwise_append]
        refine ⟨h2, List.pairwise_singleton _ _, ?_⟩
        intro r hr y hy
        have hy' : y = insertFlightRow p.1 p.2 := by simpa using hy
        subst hy'
        obtain ⟨s, hs⟩ := Option.isSome_iff_exists.mp
          (hnum p (List.mem_cons_self p ps))
        have hsid : (insertFlightRow p.1 p.2).flight_id = some s := hs
        simp only [hasKeyBy, List.any_eq_false] at hkey'
        have hcf := hkey' r hr
        rw [hsid] at hcf ⊢
        exact ne_of_keyConflict_false (eq_false_of_ne_true hcf)

/-! ## Claim theorems -/

/-- C1: counterevidence. One physical leg (`legC1`, airline AI, number 101,
scheduled departure 04:30Z, scheduled arrival 06:30Z) observed once as a
departure payload and once as an arrival payload does NOT get the same
identity key from src/new_main.py's `flights_to_dataframe`: the departure
observation is keyed by the scheduled departure time, the arrival observation
by the scheduled arrival time, so deduplication by `flight_id` keeps two
rows, not one. -/
theorem c1_normalizer_two_keys_for_one_leg :
    (flightsToDataframeNew ⟨[legC1], [legC1]⟩ "DEL").length = 2 ∧
    ((flightsToDataframeNew ⟨[legC1], [legC1]⟩ "DEL").getD 0 emptyRow).flight_id
      = "AI_101_2024-12-14T04:30Z" ∧
    ((flightsToDataframeNew ⟨[legC1], [legC1]⟩ "DEL").getD 1 emptyRow).flight_id
      = "AI_101_2024-12-14T06:30Z" ∧
    ((flightsToDataframeNew ⟨[legC1], [legC1]⟩ "DEL").getD 0 emptyRow).flight_id
      ≠ ((flightsToDataframeNew ⟨[legC1], [legC1]⟩ "DEL").getD 1 emptyRow).flight_id := by
  refine ⟨by decide, by decide, by decide, by decide⟩

/-- C2: counterevidence. For a row that departs DEL 25 minutes late and
arrives 10 minutes late, the final departure-delay sample computed by
`compute_airport_delay_metrics` is 10 minutes — the arrival-timestamp
difference — because src/etl.py lines 243-245 overwrite the departure-based
delay of lines 230-232; the claim's value
`clip(actual_departure - scheduled_departure) = 25` is not what the code
produces. -/
theorem c2_departure_delay_overwritten :
    pooledDelaysEtl parseScenario [rowC2] "DEL" = [some 10] ∧
    clipLow0 (((37500 : ℚ) - 36000) / 60) = 25 ∧
    (10 : ℚ) ≠ 25 := by
  refine ⟨?_, by norm_num [clipLow0], by norm_num⟩
  simp [pooledDelaysEtl, depRowsEtl, arrRowsEtl, delayFromArrivalFieldsMin,
    parseScenario, rowC2, emptyRow, clipLow0, List.filter]
  norm_num

/-- C3: counterevidence. On the spec's synthetic scenario (one row, scheduled
departure 10:00Z, actual departure 10:25Z, origin DEL, no arrival data),
`compute_airport_delay_metrics` does not return `delayed_flights = 1` and
`avg_delay_min = 25`: the overwritten departure delay is computed from the
absent arrival timestamps, the only pooled sample is `NaN`, and
`int(delays.mean())` raises `ValueError`. -/
theorem c3_del_scenario_fails :
    pooledDelaysEtl parseScenario [rowC3] "DEL" = [none] ∧
    computeAirportDelayMetrics parseScenario [rowC3] "DEL" "2024-12-14"
      = Except.error "cannot convert float NaN to integer" := by
  constructor
  · simp [pooledDelaysEtl, depRowsEtl, arrRowsEtl, delayFromArrivalFieldsMin,
      parseScenario, rowC3, emptyRow, List.filter]
  · simp [computeAirportDelayMetrics, pooledDelaysEtl, depRowsEtl, arrRowsEtl,
      delayFromArrivalFieldsMin, parseScenario, rowC3, emptyRow, List.filter]

/-- C4: counterevidence. With the configured 15-airport list, `run_etl`
attempts only the first airport ("DEL") and then leaves the loop, whether the
per-airport sequence succeeds or raises (the raised error is still caught and
logged): the unconditional `break` at the end of the loop body (src/main.py
line 300, src/new_main.py line 385) prevents the run from attempting every
airport. -/
theorem c4_run_etl_stops_after_first_airport :
    ((runEtlLoop AIRPORTS fun _ => Except.ok ()).map Prod.fst = ["DEL"]) ∧
    ((runEtlLoop AIRPORTS fun a => Except.error ("HTTP 500 for " ++ a))
      = [("DEL", some "HTTP 500 for DEL")]) ∧
    ["DEL"] ≠ AIRPORTS := by
  refine ⟨by decide, by decide, by decide⟩

/-- C5: running the per-airport persistence sequence a second time with the
same inputs leaves the `airport`, `aircraft` and `flights` tables with
exactly the row count of the first run (every insert is `INSERT OR IGNORE`
on the entity's identity key), while the append-only `airport_delays` table
gains one more summary row per run. The hypotheses require the identity keys
to be non-NULL, which SQLite needs for a uniqueness conflict to fire. -/
theorem c5_pipeline_rerun_row_counts (s : DBState) (a : AirportRow)
    (crows : List AircraftRow) (frows : List FlightRow) (m : DelayMetrics)
    (ha : a.iata_code.isSome = true)
    (hc : ∀ c ∈ crows, c.registration.isSome = true) :
    (runPipelineOnce (runPipelineOnce s a crows frows m) a crows frows m).airport.length
      = (runPipelineOnce s a crows frows m).airport.length ∧
    (runPipelineOnce (runPipelineOnce s a crows frows m) a crows frows m).aircraft.length
      = (runPipelineOnce s a crows frows m).aircraft.length ∧
    (runPipelineOnce (runPipelineOnce s a crows frows m) a crows frows m).flights.length
      = (runPipelineOnce s a crows frows m).flights.length ∧
    (runPipelineOnce (runPipelineOnce s a crows frows m) a crows frows m).airport_delays.length
      = (runPipelineOnce s a crows frows m).airport_delays.length + 1 := by
  refine ⟨?_, ?_, ?_, ?_⟩
  · show (insertAirport (insertAirport s.airport a) a).length
      = (insertAirport s.airport a).length
    rw [insertAirport, insertAirport,
      insertOrIgnoreBy_idem AirportRow.iata_code s.airport a ha]
  · show (crows.foldl insertAircraft (crows.foldl insertAircraft s.aircraft)).length
      = (crows.foldl insertAircraft s.aircraft).length
    rw [show crows.foldl insertAircraft (crows.foldl insertAircraft s.aircraft)
          = crows.foldl insertAircraft s.aircraft from
        batch_insertOrIgnoreBy_idem AircraftRow.registration crows s.aircraft hc]
  · show (batchInsertFlights (batchInsertFlights s.flights frows) frows).length
      = (batchInsertFlights s.flights frows).length
    unfold batchInsertFlights
    rw [batch_insertOrIgnoreBy_idem (fun r => some r.flight_id) frows s.flights
      (fun _ _ => rfl)]
  · show (insertAirportDelay (insertAirportDelay s.airport_delays m) m).length
      = (insertAirportDelay s.airport_delays m).length + 1
    simp [insertAirportDelay]

/-- C5 witness: the rerun idempotence instantiated on an empty database, the
DEL airport row, one aircraft row, one normalized flight row and one delay
summary. -/
theorem c5_witness :
    (aDel.iata_code.isSome = true ∧
      ∀ c ∈ [acVtana], c.registration.isSome = true) ∧
    ((runPipelineOnce (runPipelineOnce dbEmpty aDel [acVtana] [rowC2] mDel)
        aDel [acVtana] [rowC2] mDel).airport.length
      = (runPipelineOnce dbEmpty aDel [acVtana] [rowC2] mDel).airport.length ∧
    (runPipelineOnce (runPipelineOnce dbEmpty aDel [acVtana] [rowC2] mDel)
        aDel [acVtana] [rowC2] mDel).aircraft.length
      = (runPipelineOnce dbEmpty aDel [acVtana] [rowC2] mDel).aircraft.length ∧
    (runPipelineOnce (runPipelineOnce dbEmpty aDel [acVtana] [rowC2] mDel)
        aDel [acVtana] [rowC2] mDel).flights.length
      = (runPipelineOnce dbEmpty aDel [acVtana] [rowC2] mDel).flights.length ∧
    (runPipelineOnce (runPipelineOnce dbEmpty aDel [acVtana] [rowC2] mDel)
        aDel [acVtana] [rowC2] mDel).airport_delays.length
      = (runPipelineOnce dbEmpty aDel [acVtana] [rowC2] mDel).airport_delays.length + 1) :=
  ⟨⟨rfl, by decide⟩,
    c5_pipeline_rerun_row_counts dbEmpty aDel [acVtana] [rowC2] mDel rfl (by decide)⟩

/-- C6: counterevidence. In the cited splitter variant
`fetch_flights_for_date` (src/main.py), the first window's end instant EQUALS
the second window's start instant — it is not strictly before it — and the
second window runs to local 24:00 rather than 23:59. -/
theorem c6_windows_touch_in_main_variant :
    (fetchFlightsForDateWindows.getD 0 ⟨0, 0⟩).endMin
      = (fetchFlightsForDateWindows.getD 1 ⟨0, 0⟩).startMin ∧
    ¬((fetchFlightsForDateWindows.getD 0 ⟨0, 0⟩).endMin
      < (fetchFlightsForDateWindows.getD 1 ⟨0, 0⟩).startMin) ∧
    (fetchFlightsForDateWindows.getD 1 ⟨0, 0⟩).endMin + istOffsetMin = 1440 := by
  refine ⟨by decide, by decide, by decide⟩

/-- C6 (amended): the splitter of src/etl.py `fetch_flights` (shared by
src/new_main.py `fetch_flights`) produces exactly two windows; converted back
to local time their union covers exactly the minutes 00:00 .. 23:59 of the
day; the gap at the split point is one minute; and the first window's end
instant is strictly before the second window's start instant. -/
theorem c6_etl_windows_cover_day :
    etlFetchFlightsWindows.length = 2 ∧
    (etlFetchFlightsWindows.getD 0 ⟨0, 0⟩).endMin
      < (etlFetchFlightsWindows.getD 1 ⟨0, 0⟩).startMin ∧
    (etlFetchFlightsWindows.getD 1 ⟨0, 0⟩).startMin
      - (etlFetchFlightsWindows.getD 0 ⟨0, 0⟩).endMin ≤ 1 ∧
    ∀ m : ℤ, coveredLocal etlFetchFlightsWindows m ↔ 0 ≤ m ∧ m ≤ 1439 := by
  refine ⟨rfl, by decide, by decide, fun m => ?_⟩
  simp only [coveredLocal, etlFetchFlightsWindows, localMinuteIn, istOffsetMin,
    List.mem_cons, List.not_mem_nil, or_false, exists_eq_or_imp, exists_eq_left]
  omega

/-- C7: counterevidence. On a 500 response, `fetch_aircraft_data` does not
fail: it returns the absent-result `None`, exactly as for a 404, whereas the
claim (the spec's section 4.2 wording, embodied in
`claimedFetchAircraftData`) demands a fatal error for non-2xx statuses other
than not-found. -/
theorem c7_non2xx_returns_none :
    fetchAircraftData resp500 = none ∧
    claimedFetchAircraftData resp500 = Except.error "UpstreamHttpError" ∧
    Except.ok (fetchAircraftData resp500) ≠ claimedFetchAircraftData resp500 := by
  have h1 : fetchAircraftData resp500 = none := rfl
  have h2 : claimedFetchAircraftData resp500 = Except.error "UpstreamHttpError" := rfl
  exact ⟨h1, h2, by rw [h1, h2]; exact fun h => Except.noConfusion h⟩

/-- C7 (amended): `fetch_aircraft_data` returns the parsed record exactly on
a 200 response with a non-blank body, and returns the absent result `None`
for every other status (including server errors — no status is fatal) and
for blank bodies. -/
theorem c7_aircraft_lookup_amended {α : Type} (r : HttpResponse α) :
    (r.status ≠ 200 → fetchAircraftData r = none) ∧
    (pyStrip r.text = "" → fetchAircraftData r = none) ∧
    (r.status = 200 → pyStrip r.text ≠ "" → fetchAircraftData r = some r.json) := by
  unfold fetchAircraftData
  refine ⟨fun h => if_pos (Or.inl h), fun h => if_pos (Or.inr h), fun h1 h2 => ?_⟩
  rw [if_neg]
  rintro (h | h)
  · exact h h1
  · exact h2 h

/-- C7 witness: the amended lookup behavior applied at a 404 response with an
empty body and at a 200 response with a JSON body. -/
theorem c7_witness :
    ((404 : ℕ) ≠ 200 ∧
      fetchAircraftData (⟨404, "", "x"⟩ : HttpResponse String) = none) ∧
    ((200 : ℕ) = 200 ∧ pyStrip "{}" ≠ "" ∧
      fetchAircraftData (⟨200, "{}", "parsed"⟩ : HttpResponse String) = some "parsed") :=
  ⟨⟨by decide, (c7_aircraft_lookup_amended ⟨404, "", "x"⟩).1 (by decide)⟩,
   ⟨rfl, by decide,
    (c7_aircraft_lookup_amended ⟨200, "{}", "parsed"⟩).2.2 rfl (by decide)⟩⟩

/-- C8: counterevidence. In src/etl.py's `flights_to_dataframe`, the actual
timestamps are the `revisedTime` fields with no fallback: a departure payload
with a scheduled departure but no revised time normalizes to a row whose
`scheduled_departure` is present while `actual_departure` is absent. -/
theorem c8_etl_actual_absent :
    ((flightsToDataframeEtl ⟨[legC8], []⟩ "DEL").getD 0 emptyRow).scheduled_departure
      = some "2024-12-14T04:30Z" ∧
    ((flightsToDataframeEtl ⟨[legC8], []⟩ "DEL").getD 0 emptyRow).actual_departure
      = none := by
  refine ⟨by decide, by decide⟩

/-- C8 (amended): in src/new_main.py's `flights_to_dataframe`, every produced
row resolves each actual timestamp by preferring the revised time and falling
back to the scheduled one, so a row with a present scheduled timestamp never
has an absent actual timestamp on the same side. -/
theorem c8_new_normalizer_fallback (fl : FlightsBundle) (iata : String)
    (r : FlightRow) (hr : r ∈ flightsToDataframeNew fl iata) :
    (r.scheduled_departure.isSome = true → r.actual_departure.isSome = true) ∧
    (r.scheduled_arrival.isSome = true → r.actual_arrival.isSome = true) := by
  have hmem : r ∈ fl.departures.map (depRowNew iata)
      ++ fl.arrivals.map (arrRowNew iata) :=
    dropDupsAux_subset _ _ _ hr
  rcases List.mem_append.mp hmem with h | h
  · rcases List.mem_map.mp h with ⟨f, _, rfl⟩
    exact ⟨fun hs => pyOr_isSome_right _ _ hs, fun hs => pyOr_isSome_right _ _ hs⟩
  · rcases List.mem_map.mp h with ⟨f, _, rfl⟩
    exact ⟨fun hs => pyOr_isSome_right _ _ hs, fun hs => pyOr_isSome_right _ _ hs⟩

/-- C8 witness: the fallback behavior applied to the first normalized row of
the `legC1` departure payload (whose revised times are absent while its
scheduled departure is present). -/
theorem c8_witness :
    ((flightsToDataframeNew ⟨[legC1], []⟩ "DEL").getD 0 emptyRow)
        ∈ flightsToDataframeNew ⟨[legC1], []⟩ "DEL" ∧
    (((flightsToDataframeNew ⟨[legC1], []⟩ "DEL").getD 0 emptyRow).scheduled_departure.isSome = true →
      ((flightsToDataframeNew ⟨[legC1], []⟩ "DEL").getD 0 emptyRow).actual_departure.isSome = true) ∧
    (((flightsToDataframeNew ⟨[legC1], []⟩ "DEL").getD 0 emptyRow).scheduled_arrival.isSome = true →
      ((flightsToDataframeNew ⟨[legC1], []⟩ "DEL").getD 0 emptyRow).actual_arrival.isSome = true) :=
  ⟨by decide,
   (c8_new_normalizer_fallback ⟨[legC1], []⟩ "DEL" _ (by decide)).1,
   (c8_new_normalizer_fallback ⟨[legC1], []⟩ "DEL" _ (by decide)).2⟩

/-- C9: every numeric value of the pooled delay sample series built by
`compute_airport_delay_metrics` — the series feeding `delayed_flights`,
`avg_delay_min` and `median_delay_min` — is non-negative, for every input and
every timestamp parse, because each present sample is produced through
`clip(lower=0)`. (Entries for rows whose arrival timestamps are absent are
`NaN`, i.e. `none`, not negative numbers.) -/
theorem c9_pooled_delays_nonneg (parse : Option String → Option ℚ)
    (df : List FlightRow) (iata : String) (q : ℚ)
    (hq : q ∈ (pooledDelaysEtl parse df iata).filterMap id) : 0 ≤ q := by
  rcases List.mem_filterMap.mp hq with ⟨d, hd, hid⟩
  have hdq : d = some q := hid
  subst hdq
  rcases List.mem_append.mp hd with h | h
  all_goals {
    rcases List.mem_map.mp h with ⟨r, _, hr⟩
    unfold delayFromArrivalFieldsMin at hr
    rcases hpa : parse r.actual_arrival with _ | a <;>
      rcases hps : parse r.scheduled_arrival with _ | s <;>
        rw [hpa, hps] at hr <;> simp at hr
    rw [← hr]
    exact clipLow0_nonneg _
  }

/-- C9 witness: the non-negativity fact applied to the concrete 10-minute
sample that `rowC2` contributes. -/
theorem c9_witness :
    (10 : ℚ) ∈ (pooledDelaysEtl parseScenario [rowC2] "DEL").filterMap id ∧
    (0 : ℚ) ≤ 10 :=
  ⟨by
    simp [pooledDelaysEtl, depRowsEtl, arrRowsEtl, delayFromArrivalFieldsMin,
      parseScenario, rowC2, emptyRow, clipLow0, List.filter]
    norm_num,
   c9_pooled_delays_nonneg parseScenario [rowC2] "DEL" 10 (by
    simp [pooledDelaysEtl, depRowsEtl, arrRowsEtl, delayFromArrivalFieldsMin,
      parseScenario, rowC2, emptyRow, clipLow0, List.filter]
    norm_num)⟩

/-- C10: in the per-record `insert_flight` path, the stored `flight_id` is
the raw flight number string; inserting two payloads that share a flight
number — whatever their airlines, routes or times — leaves only the first
one's row (the second `INSERT OR IGNORE` is a no-op); consequently a flights
table populated through this path never holds two rows with the same flight
number. -/
theorem c10_insert_flight_number_is_key :
    (∀ (f : FlightPayload) (iata : String),
      (insertFlightRow f iata).flight_id = f.number) ∧
    (∀ (tbl : List StoredFlightRow) (f g : FlightPayload) (i1 i2 s : String),
      f.number = some s → g.number = some s →
      insertFlight (insertFlight tbl f i1) g i2 = insertFlight tbl f i1) ∧
    (∀ fs : List (FlightPayload × String),
      (∀ p ∈ fs, p.1.number.isSome = true) →
      (fs.foldl (fun tb p => insertFlight tb p.1 p.2) []).Pairwise
        fun r r' => r.flight_number ≠ r'.flight_number) := by
  refine ⟨fun f iata => rfl, ?_, ?_⟩
  · intro tbl f g i1 i2 s hf hg
    show insertOrIgnoreBy StoredFlightRow.flight_id (insertFlight tbl f i1)
        (insertFlightRow g i2) = insertFlight tbl f i1
    apply insertOrIgnoreBy_of_hasKey
    show hasKeyBy StoredFlightRow.flight_id (insertFlight tbl f i1)
        (insertFlightRow g i2).flight_id = true
    have hfid : (insertFlightRow f i1).flight_id = some s := hf
    have hgid : (insertFlightRow g i2).flight_id = some s := hg
    rw [hgid, ← hfid]
    exact hasKeyBy_insert_self StoredFlightRow.flight_id tbl
      (by rw [hfid]; rfl)
  · intro fs hnum
    obtain ⟨hfn, hpw⟩ := insertFlight_fold_inv fs [] hnum
      (fun r hr => absurd hr (List.not_mem_nil r)) List.Pairwise.nil
    refine hpw.imp_of_mem ?_
    intro r r' hr hr' hne hc
    exact hne (by rw [← hfn r hr, ← hfn r' hr']; exact hc)

/-- C10 witness: two payloads sharing the number "6E 202" but with different
airlines and routes; only the first insert lands. -/
theorem c10_witness :
    pf1.number = some "6E 202" ∧ pf2.number = some "6E 202" ∧
    insertFlight (insertFlight [] pf1 "DEL") pf2 "BLR"
      = insertFlight [] pf1 "DEL" :=
  ⟨rfl, rfl,
    c10_insert_flight_number_is_key.2.1 [] pf1 pf2 "DEL" "BLR" "6E 202" rfl rfl⟩
